import Mathlib

/-
  Shallow embedding of the MCP command/response protocol core of the
  playwright-mcp-framework repository:
    * controller client: src/mcp/client.js (class MCPClient)
    * executor: class MCPServer (the server code listed in README.md)

  JavaScript objects are modelled as association lists of string keys and
  JSON values; a field holding `undefined` is modelled by absence of the
  key, matching the fact that JSON.stringify drops undefined-valued fields.
-/

/-- A JSON value as it travels on the wire. -/
inductive JValue where
  | str (s : String)
  | bool (b : Bool)
  | num (n : Nat)
  | arr (xs : List JValue)
deriving Repr

/-- A JavaScript object literal: ordered key/value pairs. -/
abbrev JObj := List (String × JValue)

/-- Property access `obj.k`: the first binding of key k, or none (undefined). -/
def jget (k : String) : JObj → Option JValue
  | [] => none
  | (k', v) :: rest => if k' = k then some v else jget k rest

/-- Helper modelling JSON.stringify dropping a field whose value is undefined:
    `k: e` contributes the binding only when e is defined. -/
def optField (k : String) : Option JValue → JObj
  | some v => [(k, v)]
  | none => []

mutual
/-- JavaScript string coercion of a value, as used in template literals. -/
def jvDisplay : JValue → String
  | .str s => s
  | .bool b => cond b "true" "false"
  | .num n => toString n
  | .arr xs => jvDisplayList xs

/-- Array.prototype.toString: elements joined by commas. -/
def jvDisplayList : List JValue → String
  | [] => ""
  | [x] => jvDisplay x
  | x :: y :: xs => jvDisplay x ++ "," ++ jvDisplayList (y :: xs)
end

/-- Coercion of a possibly-undefined value, as in a template literal. -/
def jvOptDisplay : Option JValue → String
  | none => "undefined"
  | some v => jvDisplay v

/- ===== Wire messages built by the controller client (MCPClient) ===== -/

/-- Envelope built by MCPClient.navigate(url). -/
def navigateMsg (url : String) : JObj :=
  [("type", JValue.str "navigate"), ("url", JValue.str url)]

/-- Envelope built by MCPClient.takeScreenshot(name). -/
def screenshotMsg (name : String) : JObj :=
  [("type", JValue.str "screenshot"), ("name", JValue.str name)]

/-- Envelope built by MCPClient.click(selector). -/
def clickMsg (selector : String) : JObj :=
  [("type", JValue.str "click"), ("selector", JValue.str selector)]

/-- Envelope built by MCPClient.type(selector, text). -/
def typeMsg (selector text : String) : JObj :=
  [("type", JValue.str "type"), ("selector", JValue.str selector),
   ("text", JValue.str text)]

/- ===== Executor side (MCPServer) ===== -/

/-- A call into the external browser-automation engine. The MCPServer
    handlers contain no such call (their bodies are a single ws.send),
    so no embedding of a handler ever produces one; the type exists so
    that absence of engine invocations is expressible. -/
inductive EngineCall where
  | navigateTo (url : String)
  | capture (name : String)
  | clickOn (selector : String)
  | typeInto (selector text : String)
deriving Repr, DecidableEq

/-- Result of dispatching one decoded message: the single response envelope
    the handler sends, and the engine calls it performs. -/
structure DispatchResult where
  resp : JObj
  engine : List EngineCall

/-- MCPServer.handleNavigate: sends navigate-response with success and the
    echoed url (absent when message.url is undefined). -/
def handleNavigate (m : JObj) : DispatchResult :=
  { resp := [("type", JValue.str "navigate-response"),
             ("success", JValue.bool true)] ++ optField "url" (jget "url" m),
    engine := [] }

/-- MCPServer.handleScreenshot: sends screenshot-response with success and a
    filename embedding Date.now() (the `now` argument). -/
def handleScreenshot (_m : JObj) (now : Nat) : DispatchResult :=
  { resp := [("type", JValue.str "screenshot-response"),
             ("success", JValue.bool true),
             ("filename", JValue.str ("screenshot-" ++ toString now ++ ".png"))],
    engine := [] }

/-- MCPServer.handleClick: sends click-response with success and the echoed
    selector as element. -/
def handleClick (m : JObj) : DispatchResult :=
  { resp := [("type", JValue.str "click-response"),
             ("success", JValue.bool true)] ++ optField "element" (jget "selector" m),
    engine := [] }

/-- MCPServer.handleType: sends type-response with success and the echoed
    text. -/
def handleType (m : JObj) : DispatchResult :=
  { resp := [("type", JValue.str "type-response"),
             ("success", JValue.bool true)] ++ optField "text" (jget "text" m),
    engine := [] }

/-- Error envelope of the default case of MCPServer.handleMessage. -/
def unknownTypeResp (t : Option JValue) : JObj :=
  [("type", JValue.str "error"),
   ("error", JValue.str ("Unknown message type: " ++ jvOptDisplay t))]

/-- The command kinds MCPServer.handleMessage dispatches on. -/
def supportedKinds : List String := ["navigate", "screenshot", "click", "type"]

/-- Whether a decoded message matches one of handleMessage's dispatch cases. -/
def knownType (m : JObj) : Bool :=
  match jget "type" m with
  | some (JValue.str s) => supportedKinds.contains s
  | _ => false

/-- MCPServer.handleMessage: switch on message.type; `now` is the value of
    Date.now() during handling (used only by handleScreenshot). -/
def handleMessage (m : JObj) (now : Nat) : DispatchResult :=
  match jget "type" m with
  | some (JValue.str "navigate") => handleNavigate m
  | some (JValue.str "screenshot") => handleScreenshot m now
  | some (JValue.str "click") => handleClick m
  | some (JValue.str "type") => handleType m
  | t => { resp := unknownTypeResp t, engine := [] }

/-- A frame arriving on the executor's socket: either JSON.parse succeeds
    yielding an object, or it throws with an error message. -/
inductive Frame where
  | decoded (m : JObj)
  | malformed (errMsg : String)

/-- A frame the spec calls faulty: malformed, or of unrecognized kind. -/
def badFrame : Frame → Bool
  | .malformed _ => true
  | .decoded m => !(knownType m)

/-- Executor-side view of one transport session: whether the socket is open.
    The MCPServer message path never calls ws.close(), so handling a frame
    leaves it unchanged; it turns false only on the external close event. -/
structure ServerConn where
  isOpen : Bool
deriving Repr, DecidableEq

/-- Outcome of the ws message handler on one frame: the connection state
    afterwards, the envelopes sent in reply, and the engine calls made.
    A malformed frame is caught and answered with an error envelope
    carrying the thrown message; a decoded one goes to handleMessage. -/
def serverOnMessage (c : ServerConn) (f : Frame) (now : Nat) :
    ServerConn × List JObj × List EngineCall :=
  match f with
  | .malformed e =>
      (c, [[("type", JValue.str "error"), ("error", JValue.str e)]], [])
  | .decoded m =>
      let r := handleMessage m now
      (c, [r.resp], r.engine)

/-- The capabilities array of the welcome message MCPServer sends on accept. -/
def welcomeCapabilities : List JValue :=
  [JValue.str "browser-control", JValue.str "screenshot",
   JValue.str "network-monitoring", JValue.str "element-interaction"]

/-- The welcome envelope sent by the connection handler. -/
def welcomeMsg : JObj :=
  [("type", JValue.str "welcome"),
   ("message", JValue.str "Connected to MCP Server"),
   ("capabilities", JValue.arr welcomeCapabilities)]

/-- Executor process state: the set of attached clients, by count. -/
structure MCPServerState where
  clients : Nat
deriving Repr, DecidableEq

/-- The wss connection handler: adds the client and immediately sends the
    welcome envelope. -/
def serverOnConnection (s : MCPServerState) : MCPServerState × List JObj :=
  ({ clients := s.clients + 1 }, [welcomeMsg])

/- ===== Controller side (MCPClient, src/mcp/client.js) ===== -/

/-- Completion outcome of one client command method's returned promise.
    The code resolves each method's promise at issue time (send returns
    immediately); a Disconnected failure is expressible but is never
    produced by any code path. -/
inductive COutcome where
  | resolvedOk
  | disconnectedFail
deriving Repr, DecidableEq

/-- Observable state of an MCPClient instance: the constructor fields
    (url, connected, messageQueue), plus the observable history: the
    envelopes written to the socket in order (sent), the received-message
    log of the message handler, and the completion outcome of each command
    method call in issue order. -/
structure ClientState where
  url : String
  connected : Bool
  messageQueue : List JObj
  sent : List JObj
  log : List JObj
  completions : List COutcome

/-- new MCPClient(url): disconnected, empty queue. -/
def initialClient (url : String) : ClientState :=
  { url := url, connected := false, messageQueue := [],
    sent := [], log := [], completions := [] }

namespace MCPClient

/-- MCPClient.send(message): writes to the socket when connected,
    otherwise appends to messageQueue. -/
def send (s : ClientState) (m : JObj) : ClientState :=
  if s.connected then { s with sent := s.sent ++ [m] }
  else { s with messageQueue := s.messageQueue ++ [m] }

/-- One command method call: performs send and resolves the returned
    promise immediately (the method bodies just await send). -/
def issue (s : ClientState) (m : JObj) : ClientState :=
  let s' := send s m
  { s' with completions := s'.completions ++ [COutcome.resolvedOk] }

/-- MCPClient.navigate(url). -/
def navigate (s : ClientState) (url : String) : ClientState :=
  issue s (navigateMsg url)

/-- MCPClient.takeScreenshot(name). -/
def takeScreenshot (s : ClientState) (name : String) : ClientState :=
  issue s (screenshotMsg name)

/-- MCPClient.click(selector). -/
def click (s : ClientState) (selector : String) : ClientState :=
  issue s (clickMsg selector)

/-- MCPClient.type(selector, text). -/
def type (s : ClientState) (selector text : String) : ClientState :=
  issue s (typeMsg selector text)

/-- The ws open handler inside connect(): sets connected, then drains
    messageQueue front-first onto the socket, then resolves. -/
def connectOpen (s : ClientState) : ClientState :=
  { s with connected := true,
           sent := s.sent ++ s.messageQueue,
           messageQueue := [] }

/-- The ws message handler inside connect(): parses the frame and logs the
    resulting object; nothing else. Defined on decodable frames (a frame
    JSON.parse rejects would throw out of the handler instead). -/
def onMessage (s : ClientState) (m : JObj) : ClientState :=
  { s with log := s.log ++ [m] }

/-- The ws close handler inside connect(): sets connected to false. -/
def onClose (s : ClientState) : ClientState :=
  { s with connected := false }

end MCPClient

/-- The typed commands callers can issue through the client API. -/
inductive Command where
  | nav (url : String)
  | shot (name : String)
  | clk (selector : String)
  | typ (selector text : String)
deriving Repr, DecidableEq

/-- The envelope each client method builds for its command. -/
def cmdMsg : Command → JObj
  | .nav url => navigateMsg url
  | .shot name => screenshotMsg name
  | .clk selector => clickMsg selector
  | .typ selector text => typeMsg selector text

/-- Issue one typed command through the matching client method. -/
def issueCmd (s : ClientState) (c : Command) : ClientState :=
  match c with
  | .nav url => MCPClient.navigate s url
  | .shot name => MCPClient.takeScreenshot s name
  | .clk selector => MCPClient.click s selector
  | .typ selector text => MCPClient.type s selector text

/-- Issue a sequence of typed commands in order. -/
def issueCmds (s : ClientState) (cs : List Command) : ClientState :=
  cs.foldl issueCmd s

/-- One event in the life of a client instance: a caller command, the
    socket opening, a received (decodable) frame, or the socket closing. -/
inductive CEvent where
  | cmd (c : Command)
  | openEv
  | msgEv (m : JObj)
  | closeEv

/-- Effect of one event on the client state. -/
def clientStep (s : ClientState) : CEvent → ClientState
  | .cmd c => issueCmd s c
  | .openEv => MCPClient.connectOpen s
  | .msgEv m => MCPClient.onMessage s m
  | .closeEv => MCPClient.onClose s

/-- A run of the client: fold the events over an initial state. -/
def clientRun (s : ClientState) (es : List CEvent) : ClientState :=
  es.foldl clientStep s

/- ===== Helper lemmas ===== -/

/-- Each typed command goes through issue with its envelope. -/
theorem issueCmd_eq_issue (s : ClientState) (c : Command) :
    issueCmd s c = MCPClient.issue s (cmdMsg c) := by
  cases c <;> rfl

/-- Issuing one command on a disconnected client appends to the queue,
    leaves the wire untouched, and resolves the promise immediately. -/
theorem issueCmd_disconnected (s : ClientState) (c : Command)
    (h : s.connected = false) :
    issueCmd s c =
      { s with messageQueue := s.messageQueue ++ [cmdMsg c],
               completions := s.completions ++ [COutcome.resolvedOk] } := by
  rw [issueCmd_eq_issue]
  simp [MCPClient.issue, MCPClient.send, h]

/-- Issuing one command on a connected client writes to the wire and
    resolves the promise immediately. -/
theorem issueCmd_connected (s : ClientState) (c : Command)
    (h : s.connected = true) :
    issueCmd s c =
      { s with sent := s.sent ++ [cmdMsg c],
               completions := s.completions ++ [COutcome.resolvedOk] } := by
  rw [issueCmd_eq_issue]
  simp [MCPClient.issue, MCPClient.send, h]

/-- Issuing a command sequence on a disconnected client queues all the
    envelopes in order and resolves each promise. -/
theorem issueCmds_disconnected (cs : List Command) (s : ClientState)
    (h : s.connected = false) :
    issueCmds s cs =
      { s with messageQueue := s.messageQueue ++ cs.map cmdMsg,
               completions := s.completions ++
                 List.replicate cs.length COutcome.resolvedOk } := by
  induction cs generalizing s with
  | nil => simp [issueCmds]
  | cons c cs ih =>
      show issueCmds (issueCmd s c) cs = _
      rw [issueCmd_disconnected s c h, ih]
      · simp [List.replicate_succ]
      · exact h

/-- Issuing a command sequence on a connected client writes all the
    envelopes to the wire in order. -/
theorem issueCmds_connected (cs : List Command) (s : ClientState)
    (h : s.connected = true) :
    issueCmds s cs =
      { s with sent := s.sent ++ cs.map cmdMsg,
               completions := s.completions ++
                 List.replicate cs.length COutcome.resolvedOk } := by
  induction cs generalizing s with
  | nil => simp [issueCmds]
  | cons c cs ih =>
      show issueCmds (issueCmd s c) cs = _
      rw [issueCmd_connected s c h, ih]
      · simp [List.replicate_succ]
      · exact h

/-- No client event ever records a Disconnected completion. -/
theorem clientStep_disc_count (s : ClientState) (e : CEvent) :
    ((clientStep s e).completions.count COutcome.disconnectedFail)
      = s.completions.count COutcome.disconnectedFail := by
  cases e with
  | cmd c =>
      simp [clientStep, issueCmd_eq_issue, MCPClient.issue, MCPClient.send]
      split <;> simp
  | openEv => rfl
  | msgEv m => rfl
  | closeEv => rfl

/-- A whole client run preserves the count of Disconnected completions. -/
theorem clientRun_disc_count (es : List CEvent) (s : ClientState) :
    (clientRun s es).completions.count COutcome.disconnectedFail
      = s.completions.count COutcome.disconnectedFail := by
  induction es generalizing s with
  | nil => rfl
  | cons e es ih =>
      show (clientRun (clientStep s e) es).completions.count _ = _
      rw [ih, clientStep_disc_count]

/- ===== Claim theorems ===== -/

/-- C2: commands issued through the client while no connection is live are
    flushed by the open handler of connect() onto the wire strictly in the
    order the caller issued them, before any command issued after
    connection establishment. -/
theorem queued_commands_flushed_fifo (u : String) (cs ds : List Command) :
    (issueCmds (MCPClient.connectOpen (issueCmds (initialClient u) cs)) ds).sent
      = cs.map cmdMsg ++ ds.map cmdMsg := by
  rw [issueCmds_disconnected cs (initialClient u) rfl]
  rw [issueCmds_connected ds _ rfl]
  simp [MCPClient.connectOpen, initialClient]

/-- C7 counterexample: ten commands issued while disconnected are all
    retained in the queue; no entry fails, no QueueOverflow exists, so no
    configured bound below ten is ever enforced. -/
theorem queue_bound_counterexample :
    (issueCmds (initialClient "ws://localhost:8080")
        (List.replicate 10 (Command.nav "https://www.google.com/finance/"))).messageQueue.length
        = 10 ∧
    (issueCmds (initialClient "ws://localhost:8080")
        (List.replicate 10 (Command.nav "https://www.google.com/finance/"))).completions
        = List.replicate 10 COutcome.resolvedOk := by
  rw [issueCmds_disconnected _ _ rfl]
  simp [initialClient]

/-- C7 amended: the Outbound Queue is unbounded: every command issued while
    disconnected is appended and retained in FIFO order, each call's promise
    resolves immediately, and no entry ever fails with any overflow error. -/
theorem queue_retains_everything (u : String) (cs : List Command) :
    (issueCmds (initialClient u) cs).messageQueue = cs.map cmdMsg ∧
    (issueCmds (initialClient u) cs).completions
      = List.replicate cs.length COutcome.resolvedOk := by
  rw [issueCmds_disconnected cs (initialClient u) rfl]
  simp [initialClient]

/-- C4 counterexample: a client connects, issues one navigate (one command
    outstanding, its response never processed), then the connection closes;
    no caller-visible completion resolves with a Disconnected failure — the
    single completion already resolved successfully at issue time — so the
    claimed count of exactly one Disconnected resolution is false. -/
theorem pending_calls_counterexample :
    (MCPClient.onClose (MCPClient.navigate
        (MCPClient.connectOpen (initialClient "ws://localhost:8080"))
        "https://www.google.com/finance/")).sent.length = 1 ∧
    (MCPClient.onClose (MCPClient.navigate
        (MCPClient.connectOpen (initialClient "ws://localhost:8080"))
        "https://www.google.com/finance/")).completions = [COutcome.resolvedOk] ∧
    ¬ ((MCPClient.onClose (MCPClient.navigate
        (MCPClient.connectOpen (initialClient "ws://localhost:8080"))
        "https://www.google.com/finance/")).completions.count
          COutcome.disconnectedFail = 1) := by
  refine ⟨rfl, rfl, ?_⟩
  decide

/-- C4 amended: the client tracks no pending calls: every command method's
    completion resolves successfully at issue time, the close handler only
    clears the connected flag (queue, wire log and completions untouched),
    and no run of the client ever produces a Disconnected completion. -/
theorem close_never_fails_completions (u : String) (es : List CEvent)
    (s : ClientState) :
    (clientRun (initialClient u) es).completions.count
        COutcome.disconnectedFail = 0 ∧
    (MCPClient.onClose s).connected = false ∧
    (MCPClient.onClose s).completions = s.completions ∧
    (MCPClient.onClose s).messageQueue = s.messageQueue ∧
    (MCPClient.onClose s).sent = s.sent := by
  refine ⟨?_, rfl, rfl, rfl, rfl⟩
  rw [clientRun_disc_count]
  rfl

/-- C10: processing a decodable frame in the client's message handler only
    appends the parsed object to the console log: connected flag, url,
    outbound queue, wire log and completions are all unchanged; no
    completion is resolved or rejected. -/
theorem incoming_frames_only_logged (s : ClientState) (m : JObj) :
    (MCPClient.onMessage s m).connected = s.connected ∧
    (MCPClient.onMessage s m).url = s.url ∧
    (MCPClient.onMessage s m).messageQueue = s.messageQueue ∧
    (MCPClient.onMessage s m).sent = s.sent ∧
    (MCPClient.onMessage s m).completions = s.completions ∧
    (MCPClient.onMessage s m).log = s.log ++ [m] :=
  ⟨rfl, rfl, rfl, rfl, rfl, rfl⟩

/-- C1 counterexample: the envelope built by MCPClient.navigate carries no
    correlationId at all (its keys are exactly type and url), and the
    executor's navigate-response for it carries none either, so no fresh
    correlationId is allocated or echoed. -/
theorem correlation_id_counterexample :
    (navigateMsg "https://www.google.com/finance/").map Prod.fst
      = ["type", "url"] ∧
    jget "correlationId" (navigateMsg "https://www.google.com/finance/") = none ∧
    jget "correlationId"
      ((handleMessage (navigateMsg "https://www.google.com/finance/") 0).resp)
      = none :=
  ⟨rfl, rfl, rfl⟩

/-- C1 amended: the protocol carries no correlation identifiers in either
    direction: every client command envelope holds exactly its type plus the
    kind-specific fields, every executor response for a client-built command
    lacks a correlationId, and a response can be associated to its command
    only by kind: the response's type is the command's kind suffixed with
    -response. -/
theorem no_correlation_only_kind_matching (url name selector text : String)
    (now : Nat) :
    (navigateMsg url).map Prod.fst = ["type", "url"] ∧
    (screenshotMsg name).map Prod.fst = ["type", "name"] ∧
    (clickMsg selector).map Prod.fst = ["type", "selector"] ∧
    (typeMsg selector text).map Prod.fst = ["type", "selector", "text"] ∧
    jget "correlationId" ((handleMessage (navigateMsg url) now).resp) = none ∧
    jget "correlationId" ((handleMessage (screenshotMsg name) now).resp) = none ∧
    jget "correlationId" ((handleMessage (clickMsg selector) now).resp) = none ∧
    jget "correlationId" ((handleMessage (typeMsg selector text) now).resp) = none ∧
    jget "type" ((handleMessage (navigateMsg url) now).resp)
      = some (JValue.str "navigate-response") ∧
    jget "type" ((handleMessage (screenshotMsg name) now).resp)
      = some (JValue.str "screenshot-response") ∧
    jget "type" ((handleMessage (clickMsg selector) now).resp)
      = some (JValue.str "click-response") ∧
    jget "type" ((handleMessage (typeMsg selector text) now).resp)
      = some (JValue.str "type-response") := by
  refine ⟨rfl, rfl, rfl, rfl, ?_, ?_, ?_, ?_, ?_, ?_, ?_, ?_⟩ <;>
    simp [handleMessage, handleNavigate, handleScreenshot, handleClick,
          handleType, navigateMsg, screenshotMsg, clickMsg, typeMsg,
          jget, optField]

/-- C5 counterexample: the welcome envelope's capabilities array is the
    literal list browser-control, screenshot, network-monitoring,
    element-interaction: it does not contain the dispatched command kind
    navigate (nor click, nor type), and contains browser-control which is
    not a dispatched command kind, so it is not the set of command kinds
    the dispatcher supports. -/
theorem welcome_capabilities_counterexample :
    jget "capabilities" welcomeMsg = some (JValue.arr welcomeCapabilities) ∧
    JValue.str "navigate" ∉ welcomeCapabilities ∧
    JValue.str "click" ∉ welcomeCapabilities ∧
    JValue.str "type" ∉ welcomeCapabilities ∧
    JValue.str "browser-control" ∈ welcomeCapabilities ∧
    "browser-control" ∉ supportedKinds ∧
    "navigate" ∈ supportedKinds := by
  refine ⟨rfl, ?_, ?_, ?_, ?_, by decide, by decide⟩ <;>
    simp [welcomeCapabilities]

/-- C5 amended: on accepting a connection the executor registers the client
    and immediately sends a welcome envelope, but its capabilities list is
    the fixed list browser-control, screenshot, network-monitoring,
    element-interaction rather than the dispatcher's command kinds. -/
theorem welcome_sent_on_accept (s : MCPServerState) :
    (serverOnConnection s).2 = [welcomeMsg] ∧
    (serverOnConnection s).1.clients = s.clients + 1 ∧
    jget "type" welcomeMsg = some (JValue.str "welcome") ∧
    jget "capabilities" welcomeMsg
      = some (JValue.arr
          [JValue.str "browser-control", JValue.str "screenshot",
           JValue.str "network-monitoring", JValue.str "element-interaction"]) :=
  ⟨rfl, rfl, rfl, rfl⟩

/-- C6: dispatching a well-formed command of each recognized kind produces
    exactly one response envelope whose type is the kind suffixed with
    -response and whose payload has success true together with the
    kind-specific field of the interface table: url for navigate, filename
    for screenshot, element for click, text for type. -/
theorem dispatch_response_shape (c : ServerConn) (now : Nat)
    (url name selector text : String) :
    ((serverOnMessage c (Frame.decoded (navigateMsg url)) now).2.1
        = [(handleNavigate (navigateMsg url)).resp] ∧
      jget "type" ((handleMessage (navigateMsg url) now).resp)
        = some (JValue.str "navigate-response") ∧
      jget "success" ((handleMessage (navigateMsg url) now).resp)
        = some (JValue.bool true) ∧
      jget "url" ((handleMessage (navigateMsg url) now).resp)
        = some (JValue.str url)) ∧
    ((serverOnMessage c (Frame.decoded (screenshotMsg name)) now).2.1
        = [(handleScreenshot (screenshotMsg name) now).resp] ∧
      jget "type" ((handleMessage (screenshotMsg name) now).resp)
        = some (JValue.str "screenshot-response") ∧
      jget "success" ((handleMessage (screenshotMsg name) now).resp)
        = some (JValue.bool true) ∧
      jget "filename" ((handleMessage (screenshotMsg name) now).resp)
        = some (JValue.str ("screenshot-" ++ toString now ++ ".png"))) ∧
    ((serverOnMessage c (Frame.decoded (clickMsg selector)) now).2.1
        = [(handleClick (clickMsg selector)).resp] ∧
      jget "type" ((handleMessage (clickMsg selector) now).resp)
        = some (JValue.str "click-response") ∧
      jget "success" ((handleMessage (clickMsg selector) now).resp)
        = some (JValue.bool true) ∧
      jget "element" ((handleMessage (clickMsg selector) now).resp)
        = some (JValue.str selector)) ∧
    ((serverOnMessage c (Frame.decoded (typeMsg selector text)) now).2.1
        = [(handleType (typeMsg selector text)).resp] ∧
      jget "type" ((handleMessage (typeMsg selector text) now).resp)
        = some (JValue.str "type-response") ∧
      jget "success" ((handleMessage (typeMsg selector text) now).resp)
        = some (JValue.bool true) ∧
      jget "text" ((handleMessage (typeMsg selector text) now).resp)
        = some (JValue.str text)) := by
  refine ⟨⟨?_, ?_, ?_, ?_⟩, ⟨?_, ?_, ?_, ?_⟩, ⟨?_, ?_, ?_, ?_⟩, ⟨?_, ?_, ?_, ?_⟩⟩ <;>
    simp [serverOnMessage, handleMessage, handleNavigate, handleScreenshot,
          handleClick, handleType, navigateMsg, screenshotMsg, clickMsg,
          typeMsg, jget, optField]

/-- C8 counterexample: the screenshot handler is not a pure function of its
    payload: the same payload handled at two different values of Date.now()
    yields different response envelopes, because the filename embeds the
    clock. -/
theorem screenshot_not_pure_counterexample :
    (handleScreenshot (screenshotMsg "homepage") 0).resp
      ≠ (handleScreenshot (screenshotMsg "homepage") 1).resp := by
  simp [handleScreenshot]
  decide

/-- C8 amended: the navigate, click and type handlers are pure functions of
    the command payload: their dispatch result is independent of the clock;
    the screenshot handler alone also depends on Date.now(), its response
    filename being screenshot-(now).png. -/
theorem handlers_pure_except_screenshot (url name selector text : String)
    (now now' : Nat) :
    handleMessage (navigateMsg url) now = handleMessage (navigateMsg url) now' ∧
    handleMessage (clickMsg selector) now = handleMessage (clickMsg selector) now' ∧
    handleMessage (typeMsg selector text) now
      = handleMessage (typeMsg selector text) now' ∧
    jget "filename" ((handleMessage (screenshotMsg name) now).resp)
      = some (JValue.str ("screenshot-" ++ toString now ++ ".png")) := by
  refine ⟨?_, ?_, ?_, ?_⟩ <;>
    simp [handleMessage, handleNavigate, handleScreenshot, handleClick,
          handleType, navigateMsg, screenshotMsg, clickMsg, typeMsg,
          jget, optField]

/-- A decoded message whose type matches no dispatch case falls to the
    default case of handleMessage: an error envelope, no engine call. -/
theorem handleMessage_unknown (m : JObj) (now : Nat)
    (h : knownType m = false) :
    (handleMessage m now).resp = unknownTypeResp (jget "type" m) ∧
    (handleMessage m now).engine = [] := by
  unfold knownType at h
  unfold handleMessage
  split
  · rename_i heq; rw [heq] at h; simp [supportedKinds] at h
  · rename_i heq; rw [heq] at h; simp [supportedKinds] at h
  · rename_i heq; rw [heq] at h; simp [supportedKinds] at h
  · rename_i heq; rw [heq] at h; simp [supportedKinds] at h
  · exact ⟨rfl, rfl⟩

/-- C3: a malformed frame or one of unrecognized kind is answered with a
    single error envelope naming the fault; the connection is not closed,
    and a subsequent valid navigate command on the same connection is still
    dispatched to its handler and answered with a successful response. -/
theorem bad_frame_keeps_connection (c : ServerConn) (f : Frame)
    (now now' : Nat) (u : String)
    (hb : badFrame f = true) (hc : c.isOpen = true) :
    (serverOnMessage c f now).1.isOpen = true ∧
    (serverOnMessage c f now).2.1.length = 1 ∧
    (∀ r ∈ (serverOnMessage c f now).2.1,
       jget "type" r = some (JValue.str "error") ∧
       (jget "error" r).isSome = true) ∧
    (serverOnMessage (serverOnMessage c f now).1
        (Frame.decoded (navigateMsg u)) now').2.1
      = [(handleNavigate (navigateMsg u)).resp] ∧
    jget "success" (handleNavigate (navigateMsg u)).resp
      = some (JValue.bool true) := by
  have h1 : (serverOnMessage c f now).1 = c := by cases f <;> rfl
  refine ⟨by rw [h1]; exact hc, by cases f <;> rfl, ?_, ?_, ?_⟩
  · cases f with
    | malformed e =>
        intro r hr
        simp [serverOnMessage] at hr
        subst hr
        exact ⟨rfl, rfl⟩
    | decoded m =>
        intro r hr
        have hk : knownType m = false := by
          simpa [badFrame] using hb
        have hu := handleMessage_unknown m now hk
        simp [serverOnMessage] at hr
        rw [hr, hu.1]
        exact ⟨rfl, rfl⟩
  · rw [h1]
    show [(handleMessage (navigateMsg u) now').resp] = _
    simp [handleMessage, navigateMsg, jget]
  · simp [handleNavigate, navigateMsg, jget, optField]

/-- C3 witness: the unrecognized kind unknown-command on an open connection,
    followed by a valid navigate. -/
theorem bad_frame_keeps_connection_witness :
    (badFrame (Frame.decoded [("type", JValue.str "unknown-command")]) = true) ∧
    ((ServerConn.mk true).isOpen = true) ∧
    ((serverOnMessage (ServerConn.mk true)
        (Frame.decoded [("type", JValue.str "unknown-command")]) 0).1.isOpen = true ∧
     (serverOnMessage (ServerConn.mk true)
        (Frame.decoded [("type", JValue.str "unknown-command")]) 0).2.1.length = 1 ∧
     (∀ r ∈ (serverOnMessage (ServerConn.mk true)
        (Frame.decoded [("type", JValue.str "unknown-command")]) 0).2.1,
        jget "type" r = some (JValue.str "error") ∧
        (jget "error" r).isSome = true) ∧
     (serverOnMessage (serverOnMessage (ServerConn.mk true)
          (Frame.decoded [("type", JValue.str "unknown-command")]) 0).1
        (Frame.decoded (navigateMsg "https://www.google.com/finance/")) 1).2.1
       = [(handleNavigate (navigateMsg "https://www.google.com/finance/")).resp] ∧
     jget "success"
        (handleNavigate (navigateMsg "https://www.google.com/finance/")).resp
       = some (JValue.bool true)) :=
  ⟨by decide, rfl,
   bad_frame_keeps_connection (ServerConn.mk true)
     (Frame.decoded [("type", JValue.str "unknown-command")]) 0 1
     "https://www.google.com/finance/" (by decide) rfl⟩

/-- C9: every decoded message of a recognized kind, whatever its payload
    (required fields may be missing entirely), is answered by exactly one
    response with success true, never an error envelope, and the handler
    performs no call into any external automation engine. -/
theorem known_commands_always_succeed (c : ServerConn) (m : JObj) (now : Nat)
    (h : knownType m = true) :
    (serverOnMessage c (Frame.decoded m) now).2.1.length = 1 ∧
    (∀ r ∈ (serverOnMessage c (Frame.decoded m) now).2.1,
       jget "success" r = some (JValue.bool true) ∧
       jget "type" r ≠ some (JValue.str "error")) ∧
    (serverOnMessage c (Frame.decoded m) now).2.2 = [] := by
  unfold knownType at h
  rcases hj : jget "type" m with _ | v
  · rw [hj] at h; simp at h
  · rw [hj] at h
    cases v with
    | str s =>
        simp [supportedKinds, List.contains] at h
        rcases h with h | h | h | h <;> subst h <;>
          refine ⟨rfl, ?_, ?_⟩ <;>
          simp [serverOnMessage, handleMessage, hj, handleNavigate,
                handleScreenshot, handleClick, handleType, jget, optField]
    | bool b => simp at h
    | num n => simp at h
    | arr xs => simp at h

/-- C9 witness: a navigate command whose payload is missing the url field
    entirely still succeeds. -/
theorem known_commands_always_succeed_witness :
    (knownType [("type", JValue.str "navigate")] = true) ∧
    ((serverOnMessage (ServerConn.mk true)
        (Frame.decoded [("type", JValue.str "navigate")]) 0).2.1.length = 1 ∧
     (∀ r ∈ (serverOnMessage (ServerConn.mk true)
        (Frame.decoded [("type", JValue.str "navigate")]) 0).2.1,
        jget "success" r = some (JValue.bool true) ∧
        jget "type" r ≠ some (JValue.str "error")) ∧
     (serverOnMessage (ServerConn.mk true)
        (Frame.decoded [("type", JValue.str "navigate")]) 0).2.2 = []) :=
  ⟨by decide,
   known_commands_always_succeed (ServerConn.mk true)
     [("type", JValue.str "navigate")] 0 (by decide)⟩
